import Mathlib

/-!
Verification of the register codec, device session, polling manager and
inverter state machine of the midnite_conext_monitor repository.

The Python sources are shallowly embedded: machine integers are modelled
as `Nat`/`Int` with explicit modular wrap where numpy would wrap, Python
floats are modelled as exact rationals, and fallible code returns
`Except`.  Transport behaviour (the pyModbusTCP client) is abstracted as
an explicit `Transport` record of outcomes.
-/

/-- Python exception classes that appear in `modbus_control.py`,
`system_manager.py` and `main.py`.  `unboundLocalError` models the
`UnboundLocalError` raised when `set_register`'s `vals` variable is
referenced without having been assigned (register length other than
1 or 2). -/
inductive PyErr
  | valueError
  | connectionError
  | typeError
  | unboundLocalError
deriving DecidableEq, Repr

/-- Values surfaced by `ModbusControl.get_register`: a string (text
registers and enum registers, which return `val.name`) or a number
(Python int/float collapsed into an exact rational). -/
inductive PyVal
  | str (s : String)
  | num (q : ℚ)
deriving DecidableEq, Repr

/-- One Python `IntEnum` class: its members (name, defined integer
value) and whether it overrides `_missing_` with the upper-byte
fallback (only `ComboChargeStage` in the sources does). -/
structure EnumDef where
  members : List (String × ℕ)
  fallback : Bool
deriving DecidableEq, Repr

/-- The `reg_type` field of `ModbusRegister`: `str`, a numpy scalar
type, or an `IntEnum` class. -/
inductive RegType
  | tStr
  | tU16
  | tI16
  | tU32
  | tI32
  | tEnum (e : EnumDef)
deriving DecidableEq, Repr

/-- `ModbusRegister` dataclass from `modbus_control.py` (lines 34-41),
with the same field names and defaults.  Note that the dataclass has no
byte-order field of any kind. -/
structure ModbusRegister where
  addr : ℕ
  reg_type : RegType
  reg_len : ℕ := 1
  unit : String := "state"
  scale : ℚ := 1
  offset : ℚ := 0
deriving DecidableEq, Repr

/-- Values passed to `ModbusControl.set_register`: a number, or a member
of some enum class (carrying the class so the `isinstance(val,
reg.reg_type)` check can be modelled). -/
inductive WriteVal
  | num (q : ℚ)
  | enumM (e : EnumDef) (nm : String) (value : ℕ)
deriving DecidableEq, Repr

/-- Transport-level operations performed by `set_register`, in order:
the `write_multiple_registers` call and the verification re-read
(`self.get_register(reg)` on line 117). -/
inductive Op
  | write (vals : List ℤ)
  | read
deriving DecidableEq, Repr

/-- Abstracted pyModbusTCP client behaviour for one
`get_register`/`set_register` call: whether the socket is open, whether
`write_multiple_registers` succeeds, and what
`read_holding_registers` returns (`none` models a `None` reply). -/
structure Transport where
  is_open : Bool
  writeOk : Bool
  readResult : Option (List ℕ)
deriving DecidableEq, Repr

instance {ε α : Type} [DecidableEq ε] [DecidableEq α] : DecidableEq (Except ε α) := fun x y =>
  match x, y with
  | Except.ok a, Except.ok b =>
    if h : a = b then Decidable.isTrue (congrArg Except.ok h)
    else Decidable.isFalse (fun hc => h (Except.ok.inj hc))
  | Except.error a, Except.error b =>
    if h : a = b then Decidable.isTrue (congrArg Except.error h)
    else Decidable.isFalse (fun hc => h (Except.error.inj hc))
  | Except.ok _, Except.error _ => Decidable.isFalse (fun hc => Except.noConfusion hc)
  | Except.error _, Except.ok _ => Decidable.isFalse (fun hc => Except.noConfusion hc)

/-- Executable floor on rationals (kernel-reducible, unlike the
`FloorRing` projection). -/
def ratFloor (q : ℚ) : ℤ := q.num / (q.den : ℤ)

/-- Executable ceiling on rationals. -/
def ratCeil (q : ℚ) : ℤ := -ratFloor (-q)

/-- Python `int(q)` for a real argument: truncation toward zero. -/
def pyInt (q : ℚ) : ℤ := if 0 ≤ q then ratFloor q else ratCeil q

/-- Round half to even on a rational, as Python's builtin `round` does
for the integer part. -/
def rhe (q : ℚ) : ℤ :=
  let f := ratFloor q
  let r := q - (f : ℚ)
  if r < 1/2 then f
  else if 1/2 < r then f + 1
  else if f % 2 = 0 then f else f + 1

/-- Python `round(q, 2)`: round half to even at two decimal places. -/
def pyRound2 (q : ℚ) : ℚ := ((rhe (q * 100) : ℤ) : ℚ) / 100

/-- Applying a numpy scalar type constructor to a Python int: numpy
wraps modularly into the target width and reinterprets per signedness.
`tStr`/`tEnum` arms are unreachable (those cases are handled before the
numeric arms in `decodeWords`). -/
def reinterp : RegType → ℕ → ℤ
  | RegType.tU16, n => (n : ℤ) % 65536
  | RegType.tI16, n =>
    let m := (n : ℤ) % 65536
    if m < 32768 then m else m - 65536
  | RegType.tU32, n => (n : ℤ) % 4294967296
  | RegType.tI32, n =>
    let m := (n : ℤ) % 4294967296
    if m < 2147483648 then m else m - 4294967296
  | _, n => (n : ℤ)

/-- Two-word composition in `get_register` line 73:
`(ret[0] << 16) + ret[1]`.  The composition is a fixed expression,
independent of the descriptor. -/
def composeWords (w0 w1 : ℕ) : ℕ := (w0 <<< 16) + w1

/-- The two ASCII characters packed in one word (lines 67-68):
high byte first. -/
def wordChars (w : ℕ) : List Char :=
  [Char.ofNat ((w &&& 0xFF00) >>> 8), Char.ofNat (w &&& 0x00FF)]

/-- `val.rstrip` of NUL characters (line 69): trailing NULs only. -/
def rstripNul (cs : List Char) : List Char :=
  (cs.reverse.dropWhile (fun c => c == Char.ofNat 0)).reverse

/-- Text decoding of `get_register` lines 64-69. -/
def strFromWords (ret : List ℕ) : String :=
  String.mk (rstripNul (ret.foldr (fun w acc => wordChars w ++ acc) []))

/-- Plain `IntEnum` value lookup: Python `Cls(value)` when no
`_missing_` hook is defined; `none` models the `ValueError` Python
raises for an undefined value. -/
def enumLookup (ms : List (String × ℕ)) (v : ℕ) : Option String :=
  (ms.find? (fun p => p.2 == v)).map Prod.fst

/-- Fuel-indexed version of the `_missing_` fallback of
`ComboChargeStage` (midnite_classic_regmap.py lines 21-24):
`_missing_` returns `cls(value >> 8)`, which re-enters the full lookup
including `_missing_` itself, so the shift is applied repeatedly.
Structural recursion on fuel keeps the definition kernel-reducible;
`v >>> 8 < v` whenever `v ≠ 0`, so fuel `v + 1` is always enough.  The
`v = 0` unmatched arm returns `none` where Python would hit unbounded
recursion (a `RecursionError`, also a failure); for the one enum in the
repository that uses the fallback, `0` is a defined member (`Resting`),
so that arm is unreachable there. -/
def enumLookupFuel (ms : List (String × ℕ)) : ℕ → ℕ → Option String
  | 0, _ => none
  | fuel + 1, v =>
    match enumLookup ms v with
    | some nm => some nm
    | none => if v = 0 then none else enumLookupFuel ms fuel (v >>> 8)

/-- Enum lookup with the recursive upper-byte fallback. -/
def enumLookupFB (ms : List (String × ℕ)) (v : ℕ) : Option String :=
  enumLookupFuel ms (v + 1) v

/-- Python `Cls(value)` for an enum register: plain lookup, or the
fallback chain when the class defines the `_missing_` hook. -/
def enumDecode (e : EnumDef) (v : ℕ) : Option String :=
  if e.fallback then enumLookupFB e.members v else enumLookup e.members v

/-- Scaling/offset post-processing of `get_register` lines 86-88:
`val = val*scale + offset`, truncated to `int` when `scale == 1.0`. -/
def scaleNum (reg : ModbusRegister) (z : ℤ) : ℚ :=
  let q : ℚ := (z : ℚ) * reg.scale + reg.offset
  if reg.scale = 1 then ((pyInt q : ℤ) : ℚ) else q

/-- Pure decoding core of `get_register` (lines 63-91), from the raw
word list the transport returned.  Branch structure follows the source:
text first, then `reg_len == 1`, then `reg_len == 2`, else
`ValueError`; enum registers surface `val.name`. -/
def decodeWords (reg : ModbusRegister) (ret : List ℕ) : Except PyErr PyVal :=
  if reg.reg_type = RegType.tStr then
    Except.ok (PyVal.str (strFromWords ret))
  else if reg.reg_len = 1 then
    match reg.reg_type with
    | RegType.tEnum e =>
      match enumDecode e (ret.getD 0 0) with
      | some nm => Except.ok (PyVal.str nm)
      | none => Except.error PyErr.valueError
    | t => Except.ok (PyVal.num (scaleNum reg (reinterp t (ret.getD 0 0))))
  else if reg.reg_len = 2 then
    match reg.reg_type with
    | RegType.tEnum e =>
      match enumDecode e (composeWords (ret.getD 0 0) (ret.getD 1 0)) with
      | some nm => Except.ok (PyVal.str nm)
      | none => Except.error PyErr.valueError
    | t =>
      Except.ok (PyVal.num
        (scaleNum reg (reinterp t (composeWords (ret.getD 0 0) (ret.getD 1 0)))))
  else Except.error PyErr.valueError

/-- `ModbusControl.get_register` (lines 55-91): connected-precondition
check, `None`-reply check, then decode. -/
def get_register (reg : ModbusRegister) (tr : Transport) : Except PyErr PyVal :=
  if tr.is_open = false then Except.error PyErr.connectionError
  else
    match tr.readResult with
    | none => Except.error PyErr.valueError
    | some ret => decodeWords reg ret

/-- The numeric value `set_register` works with when the value is not a
matching enum member (an `IntEnum` member behaves as its int in the
arithmetic on line 104). -/
def writeValNum : WriteVal → ℚ
  | WriteVal.num q => q
  | WriteVal.enumM _ _ v => (v : ℚ)

/-- Numeric encoding of `set_register` lines 104-111:
`unscaled_val = int((val - offset) / scale)` (truncation toward zero),
then one word, or two words high-first.  Python's `>> 16` on an int is
floor division by 2^16 and `& 0xFFFF` is the nonnegative remainder,
which for the positive modulus 65536 coincide with Lean's `Int`
division/modulus.  `none` models the branch in which `vals` is never
assigned (register length other than 1 or 2). -/
def encodeNumeric (reg : ModbusRegister) (q : ℚ) : Option (List ℤ) :=
  let unscaled_val : ℤ := pyInt ((q - reg.offset) / reg.scale)
  if reg.reg_len = 1 then some [unscaled_val]
  else if reg.reg_len = 2 then some [unscaled_val / 65536, unscaled_val % 65536]
  else none

/-- `ModbusControl.set_register` (lines 93-120), returning the outcome
together with the ordered transport operations performed.  Structure
follows the source: connected check, text rejection, enum-member
short-circuit (`isinstance(reg.reg_type, EnumMeta) and isinstance(val,
reg.reg_type)`), numeric encode, `write_multiple_registers`, then the
unconditional verification re-read on line 117 whose decoded value is
passed to `round(·, 2)` — a `TypeError` when the decoded value is a
string. -/
def set_register (reg : ModbusRegister) (val : WriteVal) (tr : Transport) :
    Except PyErr Unit × List Op :=
  if tr.is_open = false then (Except.error PyErr.connectionError, [])
  else if reg.reg_type = RegType.tStr then (Except.error PyErr.valueError, [])
  else
    let valsO : Option (List ℤ) :=
      match reg.reg_type, val with
      | RegType.tEnum e, WriteVal.enumM e2 _ v =>
        if e2 = e then some [(v : ℤ)] else encodeNumeric reg (writeValNum val)
      | _, _ => encodeNumeric reg (writeValNum val)
    match valsO with
    | none => (Except.error PyErr.unboundLocalError, [])
    | some vals =>
      if tr.writeOk = false then (Except.error PyErr.valueError, [Op.write vals])
      else
        match get_register reg tr with
        | Except.error e => (Except.error e, [Op.write vals, Op.read])
        | Except.ok (PyVal.str _) =>
          (Except.error PyErr.typeError, [Op.write vals, Op.read])
        | Except.ok (PyVal.num r) =>
          if pyRound2 r ≠ pyRound2 (writeValNum val) then
            (Except.error PyErr.valueError, [Op.write vals, Op.read])
          else (Except.ok (), [Op.write vals, Op.read])

/-- `BinaryState` from conext_regmap.py (no `_missing_` hook). -/
def BinaryState : EnumDef := ⟨[("Disable", 0), ("Enable", 1)], false⟩

/-- `ComboChargeStage` from midnite_classic_regmap.py, the one enum
class that defines the `_missing_` upper-byte fallback. -/
def ComboChargeStage : EnumDef :=
  ⟨[("Resting", 0), ("Absorb", 3), ("BulkMppt", 4), ("Float", 5), ("FloatMppt", 6),
    ("Equalize", 7), ("HyperVoc", 8), ("EqMppt", 18)], true⟩

namespace Conext

/-- conext_regmap.py: the `grid_support` descriptor. -/
def grid_support : ModbusRegister :=
  { addr := 0x01B3, reg_type := RegType.tEnum BinaryState }

/-- conext_regmap.py: the `grid_support_voltage` descriptor
(scale 0.001 written as the exact rational 1/1000). -/
def grid_support_voltage : ModbusRegister :=
  { addr := 0x0178, reg_type := RegType.tU32, reg_len := 2, unit := "V",
    scale := 1/1000, offset := 0 }

/-- conext_regmap.py: the `maximum_sell_amps` descriptor. -/
def maximum_sell_amps : ModbusRegister :=
  { addr := 0x01B4, reg_type := RegType.tU32, reg_len := 2, unit := "A",
    scale := 1/1000, offset := 0 }

end Conext

namespace MidniteClassic

/-- midnite_classic_regmap.py: the `v_batt` descriptor (scale 0.1). -/
def v_batt : ModbusRegister :=
  { addr := 4114, reg_type := RegType.tU16, unit := "V", scale := 1/10, offset := 0 }

/-- midnite_classic_regmap.py: the `combo_charge_stage` descriptor. -/
def combo_charge_stage : ModbusRegister :=
  { addr := 4119, reg_type := RegType.tEnum ComboChargeStage }

end MidniteClassic

/-- One device's decoded snapshot: field name to value
(`system_manager.py` lines 57-59). -/
abbrev Snapshot := List (String × PyVal)

/-- `SystemManager.data_dict`: device name to optional snapshot. -/
abbrev DataDict := List (String × Option Snapshot)

/-- One device's per-cycle read outcome as seen by
`SystemManager._process_data`: the dictionary comprehension over
`get_register` calls either yields a full snapshot or raises
(`ValueError` or `ConnectionError`), abstracted as an `Except`. -/
structure DeviceRead where
  name : String
  result : Except PyErr Snapshot
deriving DecidableEq

/-- The per-device loop of `_process_data` (system_manager.py lines
52-71): reset the entry, read, catch `(ValueError, ConnectionError)`,
always disconnect in the `finally`.  Returns the data dictionary, the
devices whose sessions were closed, and the `json_body` measurement
names appended on success. -/
def deviceLoop : List DeviceRead → DataDict × List String × List String
  | [] => ([], [], [])
  | d :: ds =>
    let rest := deviceLoop ds
    match d.result with
    | Except.ok snap => ((d.name, some snap) :: rest.1, d.name :: rest.2.1, d.name :: rest.2.2)
    | Except.error _ => ((d.name, none) :: rest.1, d.name :: rest.2.1, rest.2.2)

/-- The observer loop of `_process_data` (system_manager.py lines
79-80): `for func in self.callbacks: func(self.data_dict)`.  The loop
has no exception handler, so the first raising callback stops the loop
and its exception propagates.  Returns how many callbacks were invoked
and the propagated exception, if any. -/
def runCallbacks (d : DataDict) : List (DataDict → Except PyErr Unit) → ℕ × Option PyErr
  | [] => (0, none)
  | f :: fs =>
    match f d with
    | Except.ok _ => let rest := runCallbacks d fs; (rest.1 + 1, rest.2)
    | Except.error e => (1, some e)

/-- Observable outcome of one `_process_data` cycle. -/
structure CycleOut where
  data_dict : DataDict
  closed : List String
  measurements : List String
  cbInvoked : ℕ
  cbErr : Option PyErr

/-- `SystemManager._process_data` (lines 46-80): the per-device loop,
then the observer loop over the assembled dictionary. -/
def process_data (devs : List DeviceRead)
    (callbacks : List (DataDict → Except PyErr Unit)) : CycleOut :=
  let r := deviceLoop devs
  let c := runCallbacks r.1 callbacks
  ⟨r.1, r.2.1, r.2.2, c.1, c.2⟩

/-- `SystemState` enum from main.py lines 42-46. -/
inductive SystemState
  | Waiting_For_Charge
  | Invert
  | Invert_Sell
  | Unknown
deriving DecidableEq, Repr

/-- `InverterStateMachine.detect_initial_state` (main.py lines 77-87). -/
def detect_initial_state (grid_support : String) (maximum_sell_amps : ℚ) : SystemState :=
  if grid_support = "Disable" then SystemState.Waiting_For_Charge
  else if maximum_sell_amps = 0 then SystemState.Invert
  else if maximum_sell_amps > 0 then SystemState.Invert_Sell
  else SystemState.Unknown

/-- Setpoint writes issued by `control_inverter`, identified by target
register and requested value (enum writes carry the member name). -/
inductive WriteIntent
  | grid_support_voltage (v : ℚ)
  | maximum_sell_amps (v : ℚ)
  | grid_support (s : String)
deriving DecidableEq, Repr

/-- The snapshot fields `control_inverter` reads (main.py lines
102-111), plus the wall-clock inputs: `now` models `time.time()` and
`recovery_time` the Monday-after-5PM test of line 120. -/
structure ControlIn where
  battery_soc : ℚ
  watts : ℚ
  maximum_sell_amps : ℚ
  grid_support : String
  load_ac_power : ℚ
  v_batt : ℚ
  inverter_status : String
  combo_charge_stage : String
  recovery_time : Bool
  now : ℚ
deriving DecidableEq, Repr

/-- `InverterStateMachine`'s mutable state: `system_state` and
`state_change_time`, which `update_state` writes together. -/
structure ControlState where
  system_state : SystemState
  state_change_time : ℚ
deriving DecidableEq, Repr

/-- Unknown-state resolution of `control_inverter` (main.py lines
114-117): `detect_initial_state` followed by `update_state`, which
also sets `state_change_time`. -/
def resolve_unknown (st : ControlState) (i : ControlIn) : ControlState :=
  if st.system_state = SystemState.Unknown then
    ⟨detect_initial_state i.grid_support i.maximum_sell_amps, i.now⟩
  else st

/-- Guard 1 of `control_inverter` (the `if` on main.py lines 125-129):
start selling.  55.6 is written as the exact rational 278/5. -/
def sell_start_guard (st : ControlState) (i : ControlIn) : ControlState × List WriteIntent :=
  if st.system_state = SystemState.Invert ∧ i.v_batt > 56 ∧
      i.now - st.state_change_time > 240 then
    (⟨SystemState.Invert_Sell, i.now⟩,
      [WriteIntent.grid_support_voltage (278/5), WriteIntent.maximum_sell_amps 21])
  else (st, [])

/-- The `if/elif` chain of guards 2-4 of `control_inverter` (main.py
lines 132-148), evaluated against the state left by guard 1 in the
same invocation. -/
def stop_guards (p : ControlState × List WriteIntent) (i : ControlIn) :
    ControlState × List WriteIntent :=
  if p.1.system_state = SystemState.Invert_Sell ∧
      (i.watts < i.load_ac_power - 500 ∨ i.inverter_status = "AC_Pass_Through") then
    (⟨SystemState.Invert, i.now⟩,
      p.2 ++ [WriteIntent.grid_support_voltage 47, WriteIntent.maximum_sell_amps 0])
  else if i.grid_support = "Enable" ∧ (i.battery_soc < 60 ∨ i.recovery_time = true) then
    (⟨SystemState.Waiting_For_Charge, i.now⟩, p.2 ++ [WriteIntent.grid_support "Disable"])
  else if i.grid_support = "Disable" ∧ i.combo_charge_stage = "Absorb" ∧
      i.battery_soc > 90 ∧ i.recovery_time = false then
    (⟨SystemState.Invert, i.now⟩,
      p.2 ++ [WriteIntent.grid_support "Enable", WriteIntent.grid_support_voltage 47,
        WriteIntent.maximum_sell_amps 0])
  else p

/-- Transition logic of `InverterStateMachine.control_inverter`
(main.py lines 113-153) on the path where both snapshots are present
and every `set_register` call succeeds: the Unknown-state resolution,
guard 1, then the separate guard chain.  Both calls to `time.time()`
within one invocation are modelled as `i.now`.  Returns the final
state and the ordered setpoint writes issued. -/
def control_inverter (st : ControlState) (i : ControlIn) : ControlState × List WriteIntent :=
  stop_guards (sell_start_guard (resolve_unknown st i) i) i

/-- The exception classes caught by the guard handlers: `except
(ValueError, ConnectionError)` in system_manager.py line 68 and in
main.py line 150.  `TypeError` and `UnboundLocalError` are not in the
set. -/
def guardCatches : PyErr → Bool
  | PyErr.valueError => true
  | PyErr.connectionError => true
  | _ => false

/-- The data-dictionary entry `_process_data` leaves for one device:
the snapshot on success, `None` when the read raised (the entry was
reset on line 54 and never reassigned). -/
def snapEntry : Except PyErr Snapshot → Option Snapshot
  | Except.ok s => some s
  | Except.error _ => none

/-- Word-count/type consistency invariant of the spec's data model
(16-bit types use 1 word, 32-bit types use 2 words). -/
def numericConsistent (reg : ModbusRegister) : Prop :=
  (reg.reg_len = 1 ∧ (reg.reg_type = RegType.tU16 ∨ reg.reg_type = RegType.tI16))
  ∨ (reg.reg_len = 2 ∧ (reg.reg_type = RegType.tU32 ∨ reg.reg_type = RegType.tI32))

/-- Exclusive upper bound of the raw values on which the numpy
reinterpretation is the identity (the type's nonnegative range). -/
def typeBound : RegType → ℤ
  | RegType.tU16 => 65536
  | RegType.tI16 => 32768
  | RegType.tU32 => 4294967296
  | RegType.tI32 => 2147483648
  | _ => 0

/-- Modelled from the spec: round-to-nearest, the `round(...)` the
spec's Encode section prescribes for the raw integer.  This definition
follows the spec's words and exists only as the comparison point for
the encode claim; the source uses `int(...)`. -/
def specRoundNearest (q : ℚ) : ℤ := ratFloor (q + 1/2)

theorem ratFloor_eq (q : ℚ) : ratFloor q = ⌊q⌋ := Rat.floor_def.symm

theorem ratCeil_eq (q : ℚ) : ratCeil q = ⌈q⌉ := by
  rw [ratCeil, ratFloor_eq, Int.floor_neg, neg_neg]

theorem pyInt_abs_sub_lt (q : ℚ) : |(pyInt q : ℚ) - q| < 1 := by
  rw [pyInt]
  split
  · rw [ratFloor_eq, abs_sub_lt_iff]
    constructor
    · have := Int.floor_le q
      linarith
    · have := Int.lt_floor_add_one q
      linarith
  · rw [ratCeil_eq, abs_sub_lt_iff]
    constructor
    · have := Int.ceil_lt_add_one q
      linarith
    · have := Int.le_ceil q
      linarith

theorem pyInt_intCast (z : ℤ) : pyInt ((z : ℤ) : ℚ) = z := by
  rw [pyInt]
  split
  · rw [ratFloor_eq, Int.floor_intCast]
  · rw [ratCeil_eq, Int.ceil_intCast]

theorem pyInt_abs_le (q : ℚ) : |(pyInt q : ℚ)| ≤ |q| := by
  rw [pyInt]
  split
  · next h =>
    rw [ratFloor_eq, abs_of_nonneg h,
      abs_of_nonneg (by exact_mod_cast Int.floor_nonneg.mpr h : (0:ℚ) ≤ (⌊q⌋ : ℚ))]
    exact Int.floor_le q
  · next h =>
    push_neg at h
    have hc' : ⌈q⌉ ≤ (0 : ℤ) := Int.ceil_le.mpr (by push_cast; linarith)
    have hc : (⌈q⌉ : ℚ) ≤ 0 := by exact_mod_cast hc'
    rw [ratCeil_eq, abs_of_nonpos (le_of_lt h), abs_of_nonpos hc]
    have := Int.le_ceil q
    linarith

/-- C10 (confirmed): `detect_initial_state` returns Waiting_For_Charge
when grid support is disabled; otherwise Invert when the maximum sell
current is 0; otherwise Invert_Sell when it is positive; otherwise
Unknown.  In particular gridSupport=Disable with maxSellAmps=0
resolves to Waiting_For_Charge. -/
theorem c10_detect_initial_state (gs : String) (amps : ℚ) :
    (gs = "Disable" → detect_initial_state gs amps = SystemState.Waiting_For_Charge)
    ∧ (gs ≠ "Disable" → amps = 0 → detect_initial_state gs amps = SystemState.Invert)
    ∧ (gs ≠ "Disable" → amps ≠ 0 → amps > 0 →
        detect_initial_state gs amps = SystemState.Invert_Sell)
    ∧ (gs ≠ "Disable" → amps ≠ 0 → ¬ amps > 0 →
        detect_initial_state gs amps = SystemState.Unknown)
    ∧ detect_initial_state "Disable" 0 = SystemState.Waiting_For_Charge := by
  refine ⟨?_, ?_, ?_, ?_, ?_⟩ <;> intros <;> simp_all [detect_initial_state]

/-- Witness for c10_detect_initial_state: the claimed particular case
and a positive-sell case, evaluated concretely. -/
theorem c10_witness :
    detect_initial_state "Disable" 0 = SystemState.Waiting_For_Charge
    ∧ detect_initial_state "Enable" 5 = SystemState.Invert_Sell :=
  ⟨(c10_detect_initial_state "Disable" 0).1 rfl,
   (c10_detect_initial_state "Enable" 5).2.2.1 (by decide) (by norm_num) (by norm_num)⟩

/-- C9 (counterexample): with state Invert, battery voltage 57 > 56V
and elapsed time 300 > 240s settle delay, but PV power lower than the
load, the same `control_inverter` invocation fires guard 1 and then
guard 2: four setpoint writes are issued and the final state is
Invert, not Invert_Sell — refuting "issuing exactly two setpoint
writes ... and then transitioning" for the invocation. -/
theorem c9_counterexample :
    (57 : ℚ) > 56 ∧ (300 : ℚ) - 0 > 240 ∧
    control_inverter ⟨SystemState.Invert, 0⟩
      { battery_soc := 100, watts := 0, maximum_sell_amps := 0, grid_support := "Enable",
        load_ac_power := 1000, v_batt := 57, inverter_status := "Invert",
        combo_charge_stage := "BulkMppt", recovery_time := false, now := 300 } =
      (⟨SystemState.Invert, 300⟩,
        [WriteIntent.grid_support_voltage (278/5), WriteIntent.maximum_sell_amps 21,
         WriteIntent.grid_support_voltage 47, WriteIntent.maximum_sell_amps 0]) := by
  refine ⟨by norm_num, by norm_num, ?_⟩
  have e1 : resolve_unknown ⟨SystemState.Invert, 0⟩
      { battery_soc := 100, watts := 0, maximum_sell_amps := 0, grid_support := "Enable",
        load_ac_power := 1000, v_batt := 57, inverter_status := "Invert",
        combo_charge_stage := "BulkMppt", recovery_time := false, now := 300 } =
      ⟨SystemState.Invert, 0⟩ :=
    if_neg (fun h => SystemState.noConfusion h)
  have e2 : sell_start_guard ⟨SystemState.Invert, 0⟩
      { battery_soc := 100, watts := 0, maximum_sell_amps := 0, grid_support := "Enable",
        load_ac_power := 1000, v_batt := 57, inverter_status := "Invert",
        combo_charge_stage := "BulkMppt", recovery_time := false, now := 300 } =
      (⟨SystemState.Invert_Sell, 300⟩,
        [WriteIntent.grid_support_voltage (278/5), WriteIntent.maximum_sell_amps 21]) := by
    rw [sell_start_guard, if_pos ⟨rfl, by norm_num, by norm_num⟩]
  rw [control_inverter, e1, e2, stop_guards,
    if_pos ⟨rfl, Or.inl (by norm_num : (0:ℚ) < 1000 - 500)⟩]
  rfl

/-- C9 (amended): when the state is Invert, battery voltage exceeds
56V and the time since the last transition exceeds the 240s settle
delay, guard 1 fires: sell voltage 55.6 and sell current 21 are
written, the state becomes Invert_Sell and state_change_time is
updated to now — and these are exactly the two writes of the
invocation provided no guard of the subsequent chain fires as well. -/
theorem c9_invert_to_invert_sell (st : ControlState) (i : ControlIn)
    (h1 : st.system_state = SystemState.Invert)
    (h2 : i.v_batt > 56)
    (h3 : i.now - st.state_change_time > 240)
    (h4 : ¬ (i.watts < i.load_ac_power - 500 ∨ i.inverter_status = "AC_Pass_Through"))
    (h5 : ¬ (i.grid_support = "Enable" ∧ (i.battery_soc < 60 ∨ i.recovery_time = true)))
    (h6 : ¬ (i.grid_support = "Disable" ∧ i.combo_charge_stage = "Absorb" ∧
        i.battery_soc > 90 ∧ i.recovery_time = false)) :
    control_inverter st i =
      (⟨SystemState.Invert_Sell, i.now⟩,
        [WriteIntent.grid_support_voltage (278/5), WriteIntent.maximum_sell_amps 21]) := by
  have hne : ¬ st.system_state = SystemState.Unknown := by
    rw [h1]; exact fun h => SystemState.noConfusion h
  have e1 : resolve_unknown st i = st := if_neg hne
  have e2 : sell_start_guard st i =
      (⟨SystemState.Invert_Sell, i.now⟩,
        [WriteIntent.grid_support_voltage (278/5), WriteIntent.maximum_sell_amps 21]) := by
    rw [sell_start_guard, if_pos ⟨h1, h2, h3⟩]
  rw [control_inverter, e1, e2, stop_guards]
  rw [if_neg (fun hc => h4 hc.2), if_neg h5, if_neg h6]

/-- Witness for c9_invert_to_invert_sell: a concrete invocation where
only guard 1 fires. -/
theorem c9_witness :
    control_inverter ⟨SystemState.Invert, 0⟩
      { battery_soc := 80, watts := 1000, maximum_sell_amps := 0, grid_support := "Enable",
        load_ac_power := 1000, v_batt := 57, inverter_status := "Invert",
        combo_charge_stage := "BulkMppt", recovery_time := false, now := 300 } =
      (⟨SystemState.Invert_Sell, 300⟩,
        [WriteIntent.grid_support_voltage (278/5), WriteIntent.maximum_sell_amps 21]) :=
  c9_invert_to_invert_sell _ _ rfl (by norm_num) (by norm_num)
    (by push_neg; exact ⟨by norm_num, by decide⟩)
    (by
      rintro ⟨-, h | h⟩
      · exact absurd h (by norm_num)
      · exact absurd h (by decide))
    (by rintro ⟨h, -⟩; exact absurd h (by decide))

theorem enumLookupFuel_succ (ms : List (String × ℕ)) (f v : ℕ) :
    enumLookupFuel ms (f + 1) v =
      match enumLookup ms v with
      | some nm => some nm
      | none => if v = 0 then none else enumLookupFuel ms f (v >>> 8) := rfl

theorem comboFuel_isSome (fuel : ℕ) : ∀ v : ℕ, v < fuel →
    (enumLookupFuel ComboChargeStage.members fuel v).isSome = true := by
  induction fuel with
  | zero => exact fun v hv => absurd hv (Nat.not_lt_zero v)
  | succ f ih =>
    intro v hv
    rw [enumLookupFuel_succ]
    cases hfind : enumLookup ComboChargeStage.members v with
    | some nm => simp
    | none =>
      have hv0 : v ≠ 0 := by
        intro h
        subst h
        have : enumLookup ComboChargeStage.members 0 = some "Resting" := by decide
        rw [this] at hfind
        cases hfind
      have hlt : v >>> 8 < v := by
        rw [Nat.shiftRight_eq_div_pow]
        exact Nat.div_lt_self (Nat.pos_of_ne_zero hv0) (by norm_num)
      simp only [hv0, if_false]
      exact ih (v >>> 8) (by omega)

/-- C4 (counterexample): `ComboChargeStage` decodes raw 0x0909 to
`Resting` even though neither 0x0909 nor its upper byte 0x09 is a
defined member value — the `_missing_` fallback is recursive, not a
single retry, so the claimed failure does not occur. -/
theorem c4_counterexample :
    enumDecode ComboChargeStage 0x0909 = some "Resting"
    ∧ enumLookup ComboChargeStage.members 0x0909 = none
    ∧ enumLookup ComboChargeStage.members (0x0909 >>> 8) = none := by decide

/-- C4 (amended): unknown raw values fail for enumerations without the
fallback hook; for `ComboChargeStage` (upper-byte fallback) the lookup
is retried recursively against successive right-shifts by 8, and since
0 (`Resting`) is a defined member every raw value decodes successfully
— in particular 0x0304 decodes to `Absorb` (0x03). -/
theorem c4_enum_decode_amended :
    (∀ (e : EnumDef) (v : ℕ), e.fallback = false → (∀ p ∈ e.members, p.2 ≠ v) →
      enumDecode e v = none)
    ∧ enumDecode ComboChargeStage 0x0304 = some "Absorb"
    ∧ ∀ v : ℕ, (enumDecode ComboChargeStage v).isSome = true := by
  refine ⟨?_, by decide, ?_⟩
  · intro e v hf hnm
    rw [enumDecode, hf, if_neg Bool.false_ne_true, enumLookup, List.find?_eq_none.mpr, Option.map_none']
    intro p hp
    simpa using hnm p hp
  · intro v
    rw [enumDecode, if_pos (by decide : ComboChargeStage.fallback = true), enumLookupFB]
    exact comboFuel_isSome (v + 1) v (Nat.lt_succ_self v)

/-- Witness for c4_enum_decode_amended: an unknown `BinaryState` value
fails, and an arbitrary `ComboChargeStage` value decodes. -/
theorem c4_witness :
    enumDecode BinaryState 7 = none
    ∧ (enumDecode ComboChargeStage 5).isSome = true :=
  ⟨c4_enum_decode_amended.1 BinaryState 7 rfl (by decide), c4_enum_decode_amended.2.2 5⟩

/-- C7 (counterexample): two observers are registered; the first
raises.  The cycle invokes only one observer and the exception
propagates out of `_process_data` — the polling manager has no handler
around the observer loop, refuting "caught and logged ... every
subsequently registered observer is still invoked". -/
theorem c7_counterexample :
    (process_data [] [fun _ => Except.error PyErr.typeError, fun _ => Except.ok ()]).cbInvoked = 1
    ∧ (process_data [] [fun _ => Except.error PyErr.typeError, fun _ => Except.ok ()]).cbErr =
        some PyErr.typeError := ⟨rfl, rfl⟩

theorem runCallbacks_append_error (d : DataDict) (pre post : List (DataDict → Except PyErr Unit))
    (f : DataDict → Except PyErr Unit) (e : PyErr)
    (hpre : ∀ g ∈ pre, g d = Except.ok ()) (hf : f d = Except.error e) :
    runCallbacks d (pre ++ f :: post) = (pre.length + 1, some e) := by
  induction pre with
  | nil =>
    rw [List.nil_append, runCallbacks, hf]
    rfl
  | cons g gs ih =>
    have hg : g d = Except.ok () := hpre g (List.mem_cons_self g gs)
    have ih' := ih (fun x hx => hpre x (List.mem_cons_of_mem g hx))
    rw [List.cons_append, runCallbacks, hg, ih']
    simp [Nat.add_comm]

/-- C7 (amended): the observer loop of `_process_data` has no
exception handler: when an observer raises, the observers registered
after it are not invoked that cycle and the exception propagates out
of the cycle. -/
theorem c7_observer_exception_propagates (devs : List DeviceRead)
    (pre post : List (DataDict → Except PyErr Unit))
    (f : DataDict → Except PyErr Unit) (e : PyErr)
    (hpre : ∀ g ∈ pre, g (deviceLoop devs).1 = Except.ok ())
    (hf : f (deviceLoop devs).1 = Except.error e) :
    (process_data devs (pre ++ f :: post)).cbInvoked = pre.length + 1
    ∧ (process_data devs (pre ++ f :: post)).cbErr = some e := by
  have h := runCallbacks_append_error (deviceLoop devs).1 pre post f e hpre hf
  constructor
  · show (runCallbacks (deviceLoop devs).1 (pre ++ f :: post)).1 = pre.length + 1
    rw [h]
  · show (runCallbacks (deviceLoop devs).1 (pre ++ f :: post)).2 = some e
    rw [h]

/-- Witness for c7_observer_exception_propagates: one succeeding
observer, then a raising one, then one more that is never reached. -/
theorem c7_witness :
    (process_data [] [fun _ => Except.ok (), fun _ => Except.error PyErr.typeError,
        fun _ => Except.ok ()]).cbInvoked = 2
    ∧ (process_data [] [fun _ => Except.ok (), fun _ => Except.error PyErr.typeError,
        fun _ => Except.ok ()]).cbErr = some PyErr.typeError :=
  c7_observer_exception_propagates [] [fun _ => Except.ok ()] [fun _ => Except.ok ()]
    (fun _ => Except.error PyErr.typeError) PyErr.typeError
    (fun g hg => by rw [List.mem_singleton.mp hg]) rfl

theorem deviceLoop_closed (devs : List DeviceRead) :
    (deviceLoop devs).2.1 = devs.map DeviceRead.name := by
  induction devs with
  | nil => rfl
  | cons x xs ih =>
    cases hr : x.result <;> simp [deviceLoop, hr, ih]

theorem deviceLoop_lookup (devs : List DeviceRead)
    (hnd : (devs.map DeviceRead.name).Nodup) (d : DeviceRead) (hd : d ∈ devs) :
    (deviceLoop devs).1.lookup d.name = some (snapEntry d.result) := by
  induction devs with
  | nil => cases hd
  | cons x xs ih =>
    rw [List.map_cons, List.nodup_cons] at hnd
    rcases List.mem_cons.mp hd with rfl | hd'
    · cases hr : d.result <;> simp [deviceLoop, hr, List.lookup, snapEntry]
    · have hne : (d.name == x.name) = false := by
        refine beq_eq_false_iff_ne.mpr fun h => hnd.1 ?_
        exact h ▸ List.mem_map_of_mem DeviceRead.name hd'
      have ihv := ih hnd.2 hd'
      cases hr : x.result <;> simp [deviceLoop, hr, List.lookup, hne, ihv]

theorem runCallbacks_all_ok (d : DataDict) (cbs : List (DataDict → Except PyErr Unit))
    (h : ∀ f ∈ cbs, f d = Except.ok ()) : runCallbacks d cbs = (cbs.length, none) := by
  induction cbs with
  | nil => rfl
  | cons f fs ih =>
    have hf : f d = Except.ok () := h f (List.mem_cons_self f fs)
    have ihv := ih fun g hg => h g (List.mem_cons_of_mem f hg)
    rw [runCallbacks, hf, ihv]
    rfl

/-- C8 (confirmed): when one device's read raises mid-snapshot, that
device's entry in the cycle's data dictionary is `None`, its session is
still closed, every other device's snapshot is recorded as read, and
the observer invocation at the end of the cycle still proceeds (here:
all observers run when none of them raises). -/
theorem c8_partial_failure (pre post : List DeviceRead) (n : String) (e : PyErr)
    (cbs : List (DataDict → Except PyErr Unit))
    (hnd : ((pre ++ { name := n, result := Except.error e } :: post).map DeviceRead.name).Nodup)
    (hcb : ∀ f ∈ cbs,
      f (deviceLoop (pre ++ { name := n, result := Except.error e } :: post)).1 =
        Except.ok ()) :
    (process_data (pre ++ ⟨n, Except.error e⟩ :: post) cbs).data_dict.lookup n = some none
    ∧ n ∈ (process_data (pre ++ ⟨n, Except.error e⟩ :: post) cbs).closed
    ∧ (∀ d ∈ pre ++ post,
        (process_data (pre ++ ⟨n, Except.error e⟩ :: post) cbs).data_dict.lookup d.name =
          some (snapEntry d.result))
    ∧ (process_data (pre ++ ⟨n, Except.error e⟩ :: post) cbs).cbInvoked = cbs.length
    ∧ (process_data (pre ++ ⟨n, Except.error e⟩ :: post) cbs).cbErr = none := by
  have hmem : (⟨n, Except.error e⟩ : DeviceRead) ∈ pre ++ ⟨n, Except.error e⟩ :: post :=
    List.mem_append.mpr (Or.inr (List.mem_cons_self _ _))
  have hrc := runCallbacks_all_ok (deviceLoop (pre ++ ⟨n, Except.error e⟩ :: post)).1 cbs hcb
  refine ⟨?_, ?_, ?_, ?_, ?_⟩
  · exact deviceLoop_lookup _ hnd ⟨n, Except.error e⟩ hmem
  · show n ∈ (deviceLoop (pre ++ ⟨n, Except.error e⟩ :: post)).2.1
    rw [deviceLoop_closed]
    exact List.mem_map_of_mem DeviceRead.name hmem
  · intro d hd
    refine deviceLoop_lookup _ hnd d ?_
    rcases List.mem_append.mp hd with h | h
    · exact List.mem_append.mpr (Or.inl h)
    · exact List.mem_append.mpr (Or.inr (List.mem_cons_of_mem _ h))
  · show (runCallbacks (deviceLoop (pre ++ ⟨n, Except.error e⟩ :: post)).1 cbs).1 = cbs.length
    rw [hrc]
  · show (runCallbacks (deviceLoop (pre ++ ⟨n, Except.error e⟩ :: post)).1 cbs).2 = none
    rw [hrc]

/-- Witness for c8_partial_failure: the charge controller reads
successfully, the inverter's read raises, one observer runs. -/
theorem c8_witness :
    (process_data [⟨"Midnite Classic", Except.ok [("battery_soc", PyVal.num 75)]⟩,
        ⟨"Conext XW6848", Except.error PyErr.valueError⟩]
      [fun _ => Except.ok ()]).data_dict.lookup "Conext XW6848" = some none
    ∧ "Conext XW6848" ∈ (process_data [⟨"Midnite Classic",
        Except.ok [("battery_soc", PyVal.num 75)]⟩,
        ⟨"Conext XW6848", Except.error PyErr.valueError⟩] [fun _ => Except.ok ()]).closed
    ∧ (process_data [⟨"Midnite Classic", Except.ok [("battery_soc", PyVal.num 75)]⟩,
        ⟨"Conext XW6848", Except.error PyErr.valueError⟩]
      [fun _ => Except.ok ()]).data_dict.lookup "Midnite Classic" =
        some (some [("battery_soc", PyVal.num 75)])
    ∧ (process_data [⟨"Midnite Classic", Except.ok [("battery_soc", PyVal.num 75)]⟩,
        ⟨"Conext XW6848", Except.error PyErr.valueError⟩] [fun _ => Except.ok ()]).cbInvoked = 1
    ∧ (process_data [⟨"Midnite Classic", Except.ok [("battery_soc", PyVal.num 75)]⟩,
        ⟨"Conext XW6848", Except.error PyErr.valueError⟩] [fun _ => Except.ok ()]).cbErr =
        none := by
  have h := c8_partial_failure [⟨"Midnite Classic", Except.ok [("battery_soc", PyVal.num 75)]⟩]
    [] "Conext XW6848" PyErr.valueError [fun _ => Except.ok ()]
    (by decide) (fun f hf => by rw [List.mem_singleton.mp hf])
  refine ⟨h.1, h.2.1, ?_, h.2.2.2.1, h.2.2.2.2⟩
  exact h.2.2.1 ⟨"Midnite Classic", Except.ok [("battery_soc", PyVal.num 75)]⟩
    (List.mem_append_left _ (List.mem_singleton.mpr rfl))

@[simp] theorem tU16_ne_tStr : RegType.tU16 ≠ RegType.tStr := fun h => RegType.noConfusion h

@[simp] theorem tI16_ne_tStr : RegType.tI16 ≠ RegType.tStr := fun h => RegType.noConfusion h

@[simp] theorem tU32_ne_tStr : RegType.tU32 ≠ RegType.tStr := fun h => RegType.noConfusion h

@[simp] theorem tI32_ne_tStr : RegType.tI32 ≠ RegType.tStr := fun h => RegType.noConfusion h

@[simp] theorem tEnum_ne_tStr (e : EnumDef) : RegType.tEnum e ≠ RegType.tStr :=
  fun h => RegType.noConfusion h

theorem set_register_ok_read (reg : ModbusRegister) (val : WriteVal) (tr : Transport)
    (res : Except PyErr Unit) (ops : List Op)
    (hpair : set_register reg val tr = (res, ops)) (hres : res = Except.ok ()) :
    Op.read ∈ ops := by
  subst hres
  simp only [set_register] at hpair
  repeat' split at hpair
  all_goals simp_all
  all_goals (subst hpair; simp)

theorem set_register_mismatch_ne_ok (reg : ModbusRegister) (val : WriteVal) (tr : Transport)
    (r : ℚ) (hget : get_register reg tr = Except.ok (PyVal.num r))
    (hne : pyRound2 r ≠ pyRound2 (writeValNum val)) :
    (set_register reg val tr).1 ≠ Except.ok () := by
  intro hok
  simp only [set_register, hget] at hok
  repeat' split at hok
  all_goals simp_all

/-- C6 (counterexample): there is no configuration — descriptor, value
or transport behaviour — under which a `set_register` call completes
successfully without having performed the verification re-read; the
re-read on line 117 is unconditional. -/
theorem c6_counterexample :
    ¬ ∃ (reg : ModbusRegister) (val : WriteVal) (tr : Transport),
      (set_register reg val tr).1 = Except.ok () ∧
        Op.read ∉ (set_register reg val tr).2 := by
  rintro ⟨reg, val, tr, hok, hnr⟩
  exact hnr (set_register_ok_read reg val tr _ _ rfl hok)

/-- C6 (amended): the post-write verification is mandatory, not a
configurable policy: every successful `set_register` call has
performed the verification re-read, and a decoded value whose
2-decimal rounding differs from the requested value prevents
success. -/
theorem c6_verification_mandatory (reg : ModbusRegister) (val : WriteVal) (tr : Transport) :
    ((set_register reg val tr).1 = Except.ok () → Op.read ∈ (set_register reg val tr).2)
    ∧ ∀ r : ℚ, get_register reg tr = Except.ok (PyVal.num r) →
        pyRound2 r ≠ pyRound2 (writeValNum val) →
        (set_register reg val tr).1 ≠ Except.ok () :=
  ⟨fun h => set_register_ok_read reg val tr _ _ rfl h,
   fun r hget hne => set_register_mismatch_ne_ok reg val tr r hget hne⟩

/-- Witness for c6_verification_mandatory: a successful write of 55.6V
to `grid_support_voltage` whose operation trace contains the re-read. -/
theorem c6_witness :
    (set_register Conext.grid_support_voltage (WriteVal.num (278/5))
        ⟨true, true, some [0, 55600]⟩).1 = Except.ok ()
    ∧ Op.read ∈ (set_register Conext.grid_support_voltage (WriteVal.num (278/5))
        ⟨true, true, some [0, 55600]⟩).2 := by
  have hok : (set_register Conext.grid_support_voltage (WriteVal.num (278/5))
      ⟨true, true, some [0, 55600]⟩).1 = Except.ok () := by
    norm_num [set_register, get_register, decodeWords, scaleNum, reinterp, composeWords,
      encodeNumeric, pyInt, ratFloor, pyRound2, rhe, writeValNum,
      Conext.grid_support_voltage, Nat.shiftLeft_eq]
  exact ⟨hok, (c6_verification_mandatory _ _ _).1 hok⟩

/-- C5 (confirmed): writing any enum member to an enum-typed register
never returns successfully even when the transport write and the
verification re-read both succeed: the re-read decodes to the member's
symbolic label (a string), and `round(label, 2)` raises `TypeError`,
which is outside the `(ValueError, ConnectionError)` set caught by the
control loop's guard handler. -/
theorem c5_enum_write_type_error (e : EnumDef) (nm : String) (value : ℕ)
    (reg : ModbusRegister) (tr : Transport)
    (hreg : reg.reg_type = RegType.tEnum e)
    (hopen : tr.is_open = true)
    (hw : tr.writeOk = true)
    (hread : ∃ s, get_register reg tr = Except.ok (PyVal.str s)) :
    (set_register reg (WriteVal.enumM e nm value) tr).1 = Except.error PyErr.typeError
    ∧ guardCatches PyErr.typeError = false := by
  obtain ⟨s, hs⟩ := hread
  refine ⟨?_, rfl⟩
  simp only [set_register, hopen, hreg, hs, hw]
  simp

/-- Witness for c5_enum_write_type_error: disabling grid support by
writing `BinaryState.Disable` to the `grid_support` register, with a
transport that accepts the write and reads back 0. -/
theorem c5_witness :
    (set_register Conext.grid_support (WriteVal.enumM BinaryState "Disable" 0)
        ⟨true, true, some [0]⟩).1 = Except.error PyErr.typeError
    ∧ guardCatches PyErr.typeError = false :=
  c5_enum_write_type_error BinaryState "Disable" 0 Conext.grid_support
    ⟨true, true, some [0]⟩ rfl rfl rfl ⟨"Disable", by decide⟩

theorem pyInt_def' (q : ℚ) : pyInt q = if 0 ≤ q then ⌊q⌋ else ⌈q⌉ := by
  rw [pyInt]
  split
  · exact ratFloor_eq q
  · exact ratCeil_eq q

theorem get_register_some (reg : ModbusRegister) (ret : List ℕ) :
    get_register reg ⟨true, true, some ret⟩ = decodeWords reg ret := rfl

theorem decodeWords_num1 (reg : ModbusRegister) (w : ℕ)
    (hlen : reg.reg_len = 1)
    (ht : reg.reg_type = RegType.tU16 ∨ reg.reg_type = RegType.tI16) :
    decodeWords reg [w] =
      Except.ok (PyVal.num (scaleNum reg (reinterp reg.reg_type w))) := by
  rcases ht with ht | ht <;> simp [decodeWords, hlen, ht]

theorem decodeWords_num2 (reg : ModbusRegister) (w0 w1 : ℕ)
    (hlen : reg.reg_len = 2)
    (ht : reg.reg_type = RegType.tU32 ∨ reg.reg_type = RegType.tI32) :
    decodeWords reg [w0, w1] =
      Except.ok (PyVal.num (scaleNum reg (reinterp reg.reg_type (composeWords w0 w1)))) := by
  rcases ht with ht | ht <;> simp [decodeWords, hlen, ht]

theorem reinterp_u16 (u : ℤ) (h0 : 0 ≤ u) (h1 : u < 65536) :
    reinterp RegType.tU16 u.toNat = u := by
  show ((u.toNat : ℕ) : ℤ) % 65536 = u
  rw [Int.toNat_of_nonneg h0, Int.emod_eq_of_lt h0 h1]

theorem reinterp_i16 (u : ℤ) (h0 : 0 ≤ u) (h1 : u < 32768) :
    reinterp RegType.tI16 u.toNat = u := by
  have hm : ((u.toNat : ℕ) : ℤ) % 65536 = u := by
    rw [Int.toNat_of_nonneg h0, Int.emod_eq_of_lt h0 (by linarith)]
  simp only [reinterp]
  rw [hm, if_pos h1]

theorem compose_split (u : ℤ) (h0 : 0 ≤ u) :
    ((composeWords (u / 65536).toNat (u % 65536).toNat : ℕ) : ℤ) = u := by
  rw [composeWords, Nat.shiftLeft_eq]
  push_cast [Int.toNat_of_nonneg (Int.ediv_nonneg h0 (by norm_num : (0:ℤ) ≤ 65536)),
    Int.toNat_of_nonneg (Int.emod_nonneg u (by norm_num : (65536:ℤ) ≠ 0))]
  omega

theorem reinterp_u32 (u : ℤ) (h0 : 0 ≤ u) (h1 : u < 4294967296) :
    reinterp RegType.tU32 (composeWords (u / 65536).toNat (u % 65536).toNat) = u := by
  show ((composeWords (u / 65536).toNat (u % 65536).toNat : ℕ) : ℤ) % 4294967296 = u
  rw [compose_split u h0, Int.emod_eq_of_lt h0 h1]

theorem reinterp_i32 (u : ℤ) (h0 : 0 ≤ u) (h1 : u < 2147483648) :
    reinterp RegType.tI32 (composeWords (u / 65536).toNat (u % 65536).toNat) = u := by
  have hm : ((composeWords (u / 65536).toNat (u % 65536).toNat : ℕ) : ℤ) % 4294967296 = u := by
    rw [compose_split u h0, Int.emod_eq_of_lt h0 (by linarith)]
  simp only [reinterp]
  rw [hm, if_pos h1]

theorem scaleNum_close (reg : ModbusRegister) (v : ℚ) (hs : reg.scale ≠ 0)
    (ho : reg.scale = 1 → ∃ k : ℤ, reg.offset = (k : ℚ)) :
    |scaleNum reg (pyInt ((v - reg.offset) / reg.scale)) - v| < |reg.scale| := by
  have hb := pyInt_abs_sub_lt ((v - reg.offset) / reg.scale)
  rw [scaleNum]
  split
  · next h1 =>
    obtain ⟨k, hk⟩ := ho h1
    rw [h1, hk] at hb ⊢
    rw [div_one] at hb ⊢
    have heq : ((pyInt (v - (k : ℚ)) : ℤ) : ℚ) * 1 + (k : ℚ)
        = ((pyInt (v - (k : ℚ)) + k : ℤ) : ℚ) := by push_cast; ring
    rw [heq, pyInt_intCast, abs_one]
    have harr : ((pyInt (v - (k : ℚ)) + k : ℤ) : ℚ) - v
        = (pyInt (v - (k : ℚ)) : ℚ) - (v - (k : ℚ)) := by push_cast; ring
    rw [harr]
    exact hb
  · next h1 =>
    have hveq : (v - reg.offset) / reg.scale * reg.scale = v - reg.offset :=
      div_mul_cancel₀ _ hs
    have harr : (pyInt ((v - reg.offset) / reg.scale) : ℚ) * reg.scale + reg.offset - v
        = ((pyInt ((v - reg.offset) / reg.scale) : ℚ) - (v - reg.offset) / reg.scale)
            * reg.scale := by
      rw [sub_mul, hveq]; ring
    rw [harr, abs_mul]
    have hspos : 0 < |reg.scale| := abs_pos.mpr hs
    calc |(pyInt ((v - reg.offset) / reg.scale) : ℚ) - (v - reg.offset) / reg.scale|
          * |reg.scale|
        < 1 * |reg.scale| := mul_lt_mul_of_pos_right hb hspos
      _ = |reg.scale| := one_mul _

/-- C1 (counterexample): the descriptor with scale 1 and offset 0.5 is
numeric with nonzero scale, and the representative value 3.2 encodes
to raw word 2 (truncation), which decodes back to 2 — an error of 1.2,
larger than one unit of the scale.  The final `int(...)` truncation of
the decode path (applied because scale == 1.0) combines with the
encode-side truncation to exceed the claimed bound. -/
theorem c1_counterexample :
    encodeNumeric ⟨0, RegType.tU16, 1, "x", 1, 1/2⟩ (16/5) = some [2]
    ∧ get_register ⟨0, RegType.tU16, 1, "x", 1, 1/2⟩ ⟨true, true, some [2]⟩ =
        Except.ok (PyVal.num 2)
    ∧ ¬ (|(2 : ℚ) - 16/5| ≤ |(1 : ℚ)|) := by
  refine ⟨?_, ?_, ?_⟩
  · norm_num [encodeNumeric, pyInt_def']
  · rw [get_register_some, decodeWords_num1 _ _ rfl (Or.inl rfl)]
    norm_num [scaleNum, reinterp, pyInt_def']
  · rw [show (2 : ℚ) - 16/5 = -(6/5) by norm_num, abs_neg,
      abs_of_nonneg (by norm_num : (0:ℚ) ≤ 6/5)]
    norm_num

/-- C1 (amended): for every numeric descriptor whose word count
matches its type, with nonzero scale, whose offset is an integer
whenever the scale is 1 (all of the repository's descriptors have
offset 0), and every representative value (one whose encoded raw
integer lies in the type's nonnegative range), decoding the words
produced by encoding v yields v back to strictly within one unit of
the scale. -/
theorem c1_round_trip_amended (reg : ModbusRegister) (v : ℚ)
    (hcons : numericConsistent reg)
    (hs : reg.scale ≠ 0)
    (ho : reg.scale = 1 → ∃ k : ℤ, reg.offset = (k : ℚ))
    (hlo : 0 ≤ pyInt ((v - reg.offset) / reg.scale))
    (hhi : pyInt ((v - reg.offset) / reg.scale) < typeBound reg.reg_type) :
    ∃ (ws : List ℤ) (r : ℚ),
      encodeNumeric reg v = some ws
      ∧ get_register reg ⟨true, true, some (ws.map Int.toNat)⟩ = Except.ok (PyVal.num r)
      ∧ |r - v| < |reg.scale| := by
  have hclose := scaleNum_close reg v hs ho
  rcases hcons with ⟨hlen, hty⟩ | ⟨hlen, hty⟩
  · refine ⟨[pyInt ((v - reg.offset) / reg.scale)],
      scaleNum reg (pyInt ((v - reg.offset) / reg.scale)), ?_, ?_, hclose⟩
    · rw [encodeNumeric, if_pos hlen]
    · rw [List.map_singleton, get_register_some, decodeWords_num1 reg _ hlen hty]
      rcases hty with hty | hty <;> rw [hty] <;> rw [hty] at hhi
      · rw [reinterp_u16 _ hlo (by simpa [typeBound] using hhi)]
      · rw [reinterp_i16 _ hlo (by simpa [typeBound] using hhi)]
  · refine ⟨[pyInt ((v - reg.offset) / reg.scale) / 65536,
      pyInt ((v - reg.offset) / reg.scale) % 65536],
      scaleNum reg (pyInt ((v - reg.offset) / reg.scale)), ?_, ?_, hclose⟩
    · rw [encodeNumeric, if_neg (by rw [hlen]; norm_num), if_pos hlen]
    · rw [show [pyInt ((v - reg.offset) / reg.scale) / 65536,
          pyInt ((v - reg.offset) / reg.scale) % 65536].map Int.toNat
          = [(pyInt ((v - reg.offset) / reg.scale) / 65536).toNat,
             (pyInt ((v - reg.offset) / reg.scale) % 65536).toNat] from rfl,
        get_register_some, decodeWords_num2 reg _ _ hlen hty]
      rcases hty with hty | hty <;> rw [hty] <;> rw [hty] at hhi
      · rw [reinterp_u32 _ hlo (by simpa [typeBound] using hhi)]
      · rw [reinterp_i32 _ hlo (by simpa [typeBound] using hhi)]

/-- Witness for c1_round_trip_amended: writing 55.6 to the
`grid_support_voltage` descriptor (scale 0.001) round-trips exactly. -/
theorem c1_witness :
    ∃ (ws : List ℤ) (r : ℚ),
      encodeNumeric Conext.grid_support_voltage (278/5) = some ws
      ∧ get_register Conext.grid_support_voltage ⟨true, true, some (ws.map Int.toNat)⟩ =
          Except.ok (PyVal.num r)
      ∧ |r - 278/5| < |Conext.grid_support_voltage.scale| :=
  c1_round_trip_amended Conext.grid_support_voltage (278/5)
    (Or.inr ⟨rfl, Or.inl rfl⟩)
    (by norm_num [Conext.grid_support_voltage])
    (fun h => absurd h (by norm_num [Conext.grid_support_voltage]))
    (by norm_num [Conext.grid_support_voltage, pyInt_def'])
    (by norm_num [Conext.grid_support_voltage, pyInt_def', typeBound])

/-- C2 (counterexample): for value 1.9 with scale 1 and offset 0, the
source's `int((val - offset)/scale)` produces raw word 1, while
round-to-nearest would produce 2. -/
theorem c2_counterexample :
    encodeNumeric ⟨0, RegType.tU16, 1, "x", 1, 0⟩ (19/10) = some [1]
    ∧ specRoundNearest ((19/10 - 0) / 1) = 2
    ∧ (1 : ℤ) ≠ 2 := by
  refine ⟨?_, ?_, by norm_num⟩
  · norm_num [encodeNumeric, pyInt_def']
  · rw [specRoundNearest, ratFloor_eq]
    norm_num

/-- C2 (amended): encoding computes the raw integer by truncation
toward zero — `int((v - offset)/scale)`, i.e. the floor for
nonnegative quotients and the ceiling for negative ones, always within
1 of the quotient and never larger in magnitude — and then splits it
into 1 word when the word count is 1, or into 2 words with the
high-order word first (`raw >> 16` then `raw & 0xFFFF`) when the word
count is 2. -/
theorem c2_encode_truncates (reg : ModbusRegister) (v : ℚ) (_hs : reg.scale ≠ 0) :
    |(pyInt ((v - reg.offset) / reg.scale) : ℚ)| ≤ |(v - reg.offset) / reg.scale|
    ∧ |(pyInt ((v - reg.offset) / reg.scale) : ℚ) - (v - reg.offset) / reg.scale| < 1
    ∧ (0 ≤ (v - reg.offset) / reg.scale →
        pyInt ((v - reg.offset) / reg.scale) = ⌊(v - reg.offset) / reg.scale⌋)
    ∧ ((v - reg.offset) / reg.scale < 0 →
        pyInt ((v - reg.offset) / reg.scale) = ⌈(v - reg.offset) / reg.scale⌉)
    ∧ (reg.reg_len = 1 → encodeNumeric reg v = some [pyInt ((v - reg.offset) / reg.scale)])
    ∧ (reg.reg_len = 2 → ∃ hi lo : ℤ,
        encodeNumeric reg v = some [hi, lo]
        ∧ hi * 65536 + lo = pyInt ((v - reg.offset) / reg.scale)
        ∧ 0 ≤ lo ∧ lo < 65536) := by
  refine ⟨pyInt_abs_le _, pyInt_abs_sub_lt _, ?_, ?_, ?_, ?_⟩
  · intro h
    rw [pyInt_def', if_pos h]
  · intro h
    rw [pyInt_def', if_neg (not_le.mpr h)]
  · intro hlen
    rw [encodeNumeric, if_pos hlen]
  · intro hlen
    refine ⟨pyInt ((v - reg.offset) / reg.scale) / 65536,
      pyInt ((v - reg.offset) / reg.scale) % 65536, ?_, ?_, ?_, ?_⟩
    · rw [encodeNumeric, if_neg (by rw [hlen]; norm_num), if_pos hlen]
    · have := Int.ediv_add_emod (pyInt ((v - reg.offset) / reg.scale)) 65536
      linarith
    · exact Int.emod_nonneg _ (by norm_num)
    · exact Int.emod_lt_of_pos _ (by norm_num)

/-- Witness for c2_encode_truncates: the two-word split of the 55600
raw count for 55.6V at scale 0.001. -/
theorem c2_witness :
    ∃ hi lo : ℤ,
      encodeNumeric Conext.grid_support_voltage (278/5) = some [hi, lo]
      ∧ hi * 65536 + lo = pyInt ((278/5 - Conext.grid_support_voltage.offset)
          / Conext.grid_support_voltage.scale)
      ∧ 0 ≤ lo ∧ lo < 65536 :=
  (c2_encode_truncates Conext.grid_support_voltage (278/5)
    (by norm_num [Conext.grid_support_voltage])).2.2.2.2.2 rfl

/-- C3 (counterexample): no descriptor configuration whatsoever — any
address, unit label and register type, with scale 1 and offset 0 —
decodes the word pair [0x0001, 0x0002] to 0x00020001: the
least-significant-word-first composition the claim attributes to
"least-significant-word-first descriptors" is not realizable, because
`ModbusRegister` carries no byte-order field and `get_register` always
composes `(ret[0] << 16) + ret[1]`. -/
theorem c3_counterexample :
    ¬ ∃ (a : ℕ) (un : String) (t : RegType),
      decodeWords ⟨a, t, 2, un, 1, 0⟩ [1, 2] = Except.ok (PyVal.num 131073) := by
  rintro ⟨a, un, t, h⟩
  rcases t with _ | _ | _ | _ | _ | e
  · simp [decodeWords] at h
  · norm_num [decodeWords, scaleNum, reinterp, composeWords, Nat.shiftLeft_eq, pyInt_def'] at h
  · norm_num [decodeWords, scaleNum, reinterp, composeWords, Nat.shiftLeft_eq, pyInt_def'] at h
  · norm_num [decodeWords, scaleNum, reinterp, composeWords, Nat.shiftLeft_eq, pyInt_def'] at h
  · norm_num [decodeWords, scaleNum, reinterp, composeWords, Nat.shiftLeft_eq, pyInt_def'] at h
  · rcases henum : enumDecode e (composeWords 1 2) with _ | nm <;>
      simp [decodeWords, henum] at h

/-- C3 (amended): two-word decoding always composes the words
most-significant-word-first — the composed integer is
`(word0 << 16) | word1 = word0 * 2^16 + word1` for every descriptor
configuration (there is no byte-order field to configure) — and the
unscaled 32-bit unsigned decode of [0x0001, 0x0002] is 0x00010002. -/
theorem c3_decode_msw_first (a : ℕ) (un : String) (s o : ℚ) (w0 w1 : ℕ) (t : RegType)
    (ht : t = RegType.tU32 ∨ t = RegType.tI32) :
    composeWords w0 w1 = w0 * 65536 + w1
    ∧ decodeWords ⟨a, t, 2, un, s, o⟩ [w0, w1] =
        Except.ok (PyVal.num (scaleNum ⟨a, t, 2, un, s, o⟩ (reinterp t (composeWords w0 w1))))
    ∧ decodeWords ⟨0, RegType.tU32, 2, "x", 1, 0⟩ [1, 2] = Except.ok (PyVal.num 65538) := by
  refine ⟨?_, decodeWords_num2 _ _ _ rfl ht, ?_⟩
  · rw [composeWords, Nat.shiftLeft_eq]
  · rw [decodeWords_num2 _ _ _ rfl (Or.inl rfl)]
    norm_num [scaleNum, reinterp, composeWords, Nat.shiftLeft_eq, pyInt_def']

/-- Witness for c3_decode_msw_first: the endianness example of the
spec, decoded through a 32-bit unsigned descriptor. -/
theorem c3_witness :
    composeWords 1 2 = 1 * 65536 + 2
    ∧ decodeWords ⟨0, RegType.tU32, 2, "V", 1, 0⟩ [1, 2] =
        Except.ok (PyVal.num (scaleNum ⟨0, RegType.tU32, 2, "V", 1, 0⟩
          (reinterp RegType.tU32 (composeWords 1 2))))
    ∧ decodeWords ⟨0, RegType.tU32, 2, "x", 1, 0⟩ [1, 2] = Except.ok (PyVal.num 65538) :=
  c3_decode_msw_first 0 "V" 1 0 1 2 RegType.tU32 (Or.inl rfl)
